import Mathlib

/-
Shallow embedding of the fitness-music backend (src/server_new.py).

The server is a set of FastAPI request handlers over a SQLite store.
Each handler is translated as a pure Lean function over an explicit
database state `DB`.  Conventions of the embedding:

  * SQLAlchemy rows become Lean structures; each table is a `List` held
    in `DB`, in insertion order (SQLite storage order for these tables).
  * Python `float` columns become `Rat` (the claims checked here are
    about control flow and exact field values, not rounding).
  * `datetime` values become `Nat` timestamps (seconds).
  * A JWT is modelled as its decoded content plus the key it was signed
    with; `jwtDecode` accepts the token exactly when the key matches the
    server secret and the expiry is still in the future (PyJWT rejects
    when `exp <= now`), mirroring `jwt.decode(token, SECRET_KEY, ...)`.
  * A handler outcome is `Except Failure _`: `Failure.http` is a raised
    `HTTPException` that reaches the client (status, detail, optional
    WWW-Authenticate header); `Failure.unhandled` is an exception nothing
    catches, which the framework surfaces as a generic 500 response.
    `user = db.query(User)...first()` returning `None` followed by
    `user.id` is an uncaught `AttributeError`, and a duplicate-key
    `db.commit()` is an uncaught `IntegrityError`.
  * Every protected handler wraps its body in a try block ended by
    `except jwt.JWTError:`.  The file does `import jwt`, binding PyJWT,
    which exports no `JWTError` (that name is python-jose's), so the
    moment any exception is raised inside the try block, evaluating the
    except clause itself raises `AttributeError: module jwt has no
    attribute JWTError`, and that is what propagates.  Decode failures
    and the in-try `raise HTTPException(404)`s therefore all surface as
    unhandled 500s; only `create_user` and `login`, which have no try
    block, deliver their `HTTPException`s intact.
  * `bcrypt` hashing and verification are collaborators: handlers that
    use them take the hash / verify function as an explicit parameter.
  * Handlers that write to the store return the new `DB` alongside the
    response; primary keys autoincrement via `nextId`.
-/

namespace Server

/-- Constant `SECRET_KEY = "your-secret-key"` from server_new.py. -/
def SECRET_KEY : String := "your-secret-key"

/-- Constant `ACCESS_TOKEN_EXPIRE_MINUTES = 30`. -/
def ACCESS_TOKEN_EXPIRE_MINUTES : Nat := 30

/-- Row of table `users`. -/
structure User where
  id : Nat
  username : String
  email : String
  hashed_password : String
deriving DecidableEq

/-- Row of table `workouts`. -/
structure Workout where
  id : Nat
  user_id : Nat
  workout_type : String
  duration : Rat
  calories_burned : Rat
  date : Nat
  music_playlist_id : Option Nat
deriving DecidableEq

/-- Row of table `user_goals`. -/
structure UserGoal where
  id : Nat
  user_id : Nat
  goal_type : String
  target_value : Rat
  deadline : Nat
deriving DecidableEq

/-- Row of table `playlists`. -/
structure Playlist where
  id : Nat
  user_id : Nat
  name : String
  description : String
  is_workout_playlist : Bool
deriving DecidableEq

/-- Row of table `playlist_songs`. -/
structure PlaylistSong where
  id : Nat
  playlist_id : Nat
  song_id : Nat
  position : Nat
deriving DecidableEq

/-- The relational store: each table as a list of rows in insertion order. -/
structure DB where
  users : List User
  workouts : List Workout
  user_goals : List UserGoal
  playlists : List Playlist
  playlist_songs : List PlaylistSong
deriving DecidableEq

/-- An encoded bearer token: its payload (`sub`, `exp`) together with the
key it was signed with; the signature is valid iff `key = SECRET_KEY`. -/
structure Token where
  sub : String
  exp : Nat
  key : String
deriving DecidableEq

/-- The decoded JWT payload. -/
structure Payload where
  sub : String
  exp : Nat
deriving DecidableEq

/-- The two failure modes of `jwt.decode` relevant here.  The handlers
try to catch them with `except jwt.JWTError`, an attribute PyJWT does
not have, so in the handlers below either one ends as an unhandled
`AttributeError`. -/
inductive JwtError where
  | invalidSignature
  | expired
deriving DecidableEq

/-- Model of `jwt.decode(token, SECRET_KEY, algorithms=[ALGORITHM])` at time `now`:
rejects a wrong signature, rejects when `exp <= now`, otherwise returns
the payload. -/
def jwtDecode (token : Token) (now : Nat) : Except JwtError Payload :=
  if token.key = SECRET_KEY then
    if token.exp ≤ now then Except.error JwtError.expired
    else Except.ok { sub := token.sub, exp := token.exp }
  else Except.error JwtError.invalidSignature

/-- A raised `HTTPException`: status code, detail, optional
`WWW-Authenticate` header value. -/
structure HTTPException where
  status_code : Nat
  detail : String
  www_authenticate : Option String
deriving DecidableEq

/-- A failed request: either a raised `HTTPException`, or an exception no
handler catches (surfaced by the framework as a generic 500). -/
inductive Failure where
  | http : HTTPException → Failure
  | unhandled : String → Failure
deriving DecidableEq

/-- The HTTP status a `Failure` is surfaced with. -/
def Failure.status : Failure → Nat
  | Failure.http e => e.status_code
  | Failure.unhandled _ => 500

/-- The `WWW-Authenticate` header of the surfaced response, if any. -/
def Failure.challenge : Failure → Option String
  | Failure.http e => e.www_authenticate
  | Failure.unhandled _ => none

instance {ε α : Type} [DecidableEq ε] [DecidableEq α] : DecidableEq (Except ε α) :=
  fun x y =>
    match x, y with
    | Except.ok a, Except.ok b =>
        match decEq a b with
        | isTrue h => isTrue (h ▸ rfl)
        | isFalse h => isFalse (fun hc => h (Except.ok.inj hc))
    | Except.error a, Except.error b =>
        match decEq a b with
        | isTrue h => isTrue (h ▸ rfl)
        | isFalse h => isFalse (fun hc => h (Except.error.inj hc))
    | Except.ok _, Except.error _ => isFalse (fun hc => Except.noConfusion hc)
    | Except.error _, Except.ok _ => isFalse (fun hc => Except.noConfusion hc)

/-- Status of a handler outcome (`none` on success). -/
def errStatus {α : Type} : Except Failure α → Option Nat
  | Except.error f => some (Failure.status f)
  | Except.ok _ => none

/-- The `WWW-Authenticate` header of a failed outcome (`none` on success,
`some none` on a failure that carries no challenge header). -/
def errChallenge {α : Type} : Except Failure α → Option (Option String)
  | Except.error f => some (Failure.challenge f)
  | Except.ok _ => none

/-- Autoincrement primary key: one past the largest id in use. -/
def nextId (ids : List Nat) : Nat := ids.foldr max 0 + 1

/-- Lookup `db.query(User).filter(User.username == username).first()`. -/
def findUser (db : DB) (username : String) : Option User :=
  db.users.find? (fun u => u.username == username)

/-- Model of `create_access_token` applied to the payload `sub`: it expires at
`now + ACCESS_TOKEN_EXPIRE_MINUTES` minutes, signed with `SECRET_KEY`. -/
def create_access_token (sub : String) (now : Nat) : Token :=
  { sub := sub, exp := now + ACCESS_TOKEN_EXPIRE_MINUTES * 60, key := SECRET_KEY }

/-- Response of a successful `POST /token`. -/
structure TokenResponse where
  access_token : Token
  token_type : String
deriving DecidableEq

/-- Entry of the `GET /goals/progress` response list. -/
structure ProgressEntry where
  goal_type : String
  target : Rat
  current : Rat
  percentage : Rat
deriving DecidableEq

/-- Handler `create_user` for `POST /users/`: builds a `User` with the hashed
password and commits it.  The handler performs no duplicate check of its
own; the UNIQUE constraints on `username` and `email` make the commit
raise an uncaught `IntegrityError` when either value is already taken. -/
def create_user (hashFn : String → String) (db : DB)
    (username email password : String) : Except Failure String × DB :=
  let db_user : User :=
    { id := nextId (db.users.map User.id), username := username,
      email := email, hashed_password := hashFn password }
  if db.users.any (fun u => u.username == username || u.email == email) then
    (Except.error (Failure.unhandled "IntegrityError: UNIQUE constraint failed"), db)
  else
    (Except.ok "User created successfully", { db with users := db.users ++ [db_user] })

/-- Handler `login` for `POST /token`: looks the user up by username, verifies the
password, and on success returns a fresh bearer token.  The 401 raised on
failure carries no `WWW-Authenticate` header (the `HTTPException` is
constructed without a `headers` argument). -/
def login (verifyPassword : String → String → Bool) (db : DB)
    (username password : String) (now : Nat) : Except Failure TokenResponse :=
  match findUser db username with
  | none =>
      Except.error (Failure.http
        { status_code := 401, detail := "Incorrect username or password",
          www_authenticate := none })
  | some user =>
      if verifyPassword password user.hashed_password then
        Except.ok { access_token := create_access_token user.username now,
                    token_type := "bearer" }
      else
        Except.error (Failure.http
          { status_code := 401, detail := "Incorrect username or password",
            www_authenticate := none })

/-- Handler `create_workout` for `POST /workouts/`: decode token, look up the user
(`user.id` on a missing user is an uncaught `AttributeError`), insert the
workout owned by the caller.  `date` defaults to the current time.  A
decode failure reaches the broken `except jwt.JWTError` clause, whose
evaluation raises `AttributeError`, surfaced as an unhandled 500. -/
def create_workout (db : DB) (token : Token) (now : Nat)
    (workout_type : String) (duration calories_burned : Rat)
    (playlist_id : Option Nat) : Except Failure String × DB :=
  match jwtDecode token now with
  | Except.error _ =>
      (Except.error (Failure.unhandled "AttributeError: module jwt has no attribute JWTError"), db)
  | Except.ok payload =>
      match findUser db payload.sub with
      | none =>
          (Except.error (Failure.unhandled "AttributeError: NoneType has no attribute id"), db)
      | some user =>
          let db_workout : Workout :=
            { id := nextId (db.workouts.map Workout.id), user_id := user.id,
              workout_type := workout_type, duration := duration,
              calories_burned := calories_burned, date := now,
              music_playlist_id := playlist_id }
          (Except.ok "Workout logged successfully",
           { db with workouts := db.workouts ++ [db_workout] })

/-- Handler `get_workout` for GET on a workout id: the query filters on
`Workout.id == workout_id AND Workout.user_id == user.id`; a row that is
absent or owned by another user triggers the in-try
`raise HTTPException(404)`.  That exception — like a decode failure —
reaches the broken `except jwt.JWTError` clause (PyJWT exports no
`JWTError`), whose evaluation raises `AttributeError`, so both cases
surface as the same unhandled 500. -/
def get_workout (db : DB) (token : Token) (now : Nat) (workout_id : Nat) :
    Except Failure Workout :=
  match jwtDecode token now with
  | Except.error _ =>
      Except.error (Failure.unhandled "AttributeError: module jwt has no attribute JWTError")
  | Except.ok payload =>
      match findUser db payload.sub with
      | none =>
          Except.error (Failure.unhandled "AttributeError: NoneType has no attribute id")
      | some user =>
          match db.workouts.find? (fun w => w.id == workout_id && w.user_id == user.id) with
          | none =>
              Except.error (Failure.unhandled "AttributeError: module jwt has no attribute JWTError")
          | some workout => Except.ok workout

/-- Handler `update_workout` for PUT on a workout id: same ownership-gated
lookup as `get_workout`; on a hit it assigns `workout_type`, `duration`
and `calories_burned` from the payload (the payload's `playlist_id` is
never written) and returns the row.  The in-try 404 and decode failures
surface as unhandled 500s through the broken `except jwt.JWTError`
clause, as in `get_workout`. -/
def update_workout (db : DB) (token : Token) (now : Nat) (workout_id : Nat)
    (workout_type : String) (duration calories_burned : Rat)
    (playlist_id : Option Nat) : Except Failure Workout × DB :=
  match jwtDecode token now with
  | Except.error _ =>
      (Except.error (Failure.unhandled "AttributeError: module jwt has no attribute JWTError"), db)
  | Except.ok payload =>
      match findUser db payload.sub with
      | none =>
          (Except.error (Failure.unhandled "AttributeError: NoneType has no attribute id"), db)
      | some user =>
          match db.workouts.find? (fun w => w.id == workout_id && w.user_id == user.id) with
          | none =>
              (Except.error (Failure.unhandled "AttributeError: module jwt has no attribute JWTError"), db)
          | some db_workout =>
              let updated : Workout :=
                { db_workout with
                  workout_type := workout_type
                  duration := duration
                  calories_burned := calories_burned }
              (Except.ok updated,
               { db with workouts :=
                  db.workouts.map (fun w => if w.id == db_workout.id then updated else w) })

/-- Handler `delete_workout` for DELETE on a workout id: same
ownership-gated lookup; on a hit the row is deleted.  The in-try 404 and
decode failures surface as unhandled 500s through the broken
`except jwt.JWTError` clause, as in `get_workout`. -/
def delete_workout (db : DB) (token : Token) (now : Nat) (workout_id : Nat) :
    Except Failure String × DB :=
  match jwtDecode token now with
  | Except.error _ =>
      (Except.error (Failure.unhandled "AttributeError: module jwt has no attribute JWTError"), db)
  | Except.ok payload =>
      match findUser db payload.sub with
      | none =>
          (Except.error (Failure.unhandled "AttributeError: NoneType has no attribute id"), db)
      | some user =>
          match db.workouts.find? (fun w => w.id == workout_id && w.user_id == user.id) with
          | none =>
              (Except.error (Failure.unhandled "AttributeError: module jwt has no attribute JWTError"), db)
          | some workout =>
              (Except.ok "Workout deleted successfully",
               { db with workouts := db.workouts.eraseP (fun w => w.id == workout.id) })

/-- Handler `get_workouts` for `GET /workouts/`: all workouts whose `user_id` is
the caller's id.  A decode failure surfaces as an unhandled 500 through
the broken `except jwt.JWTError` clause. -/
def get_workouts (db : DB) (token : Token) (now : Nat) :
    Except Failure (List Workout) :=
  match jwtDecode token now with
  | Except.error _ =>
      Except.error (Failure.unhandled "AttributeError: module jwt has no attribute JWTError")
  | Except.ok payload =>
      match findUser db payload.sub with
      | none =>
          Except.error (Failure.unhandled "AttributeError: NoneType has no attribute id")
      | some user =>
          Except.ok (db.workouts.filter (fun w => w.user_id == user.id))

/-- Handler `get_goals` for `GET /goals/`: all goals whose `user_id` is the
caller's id.  A decode failure surfaces as an unhandled 500 through the
broken `except jwt.JWTError` clause. -/
def get_goals (db : DB) (token : Token) (now : Nat) :
    Except Failure (List UserGoal) :=
  match jwtDecode token now with
  | Except.error _ =>
      Except.error (Failure.unhandled "AttributeError: module jwt has no attribute JWTError")
  | Except.ok payload =>
      match findUser db payload.sub with
      | none =>
          Except.error (Failure.unhandled "AttributeError: NoneType has no attribute id")
      | some user =>
          Except.ok (db.user_goals.filter (fun g => g.user_id == user.id))

/-- Handler `get_playlists` for `GET /playlists/`: all playlists whose `user_id` is
the caller's id.  A decode failure surfaces as an unhandled 500 through
the broken `except jwt.JWTError` clause. -/
def get_playlists (db : DB) (token : Token) (now : Nat) :
    Except Failure (List Playlist) :=
  match jwtDecode token now with
  | Except.error _ =>
      Except.error (Failure.unhandled "AttributeError: module jwt has no attribute JWTError")
  | Except.ok payload =>
      match findUser db payload.sub with
      | none =>
          Except.error (Failure.unhandled "AttributeError: NoneType has no attribute id")
      | some user =>
          Except.ok (db.playlists.filter (fun p => p.user_id == user.id))

/-- Handler `get_goal_progress` for `GET /goals/progress`: for each of the caller's
goals, a `"calories"` goal yields an entry against the summed
`calories_burned` of the caller's workouts, a `"duration"` goal against
the summed `duration`; any other `goal_type` appends nothing.  The
percentage is `current / target * 100` guarded by `target_value > 0`,
else `0`.  A decode failure surfaces as an unhandled 500 through the
broken `except jwt.JWTError` clause. -/
def get_goal_progress (db : DB) (token : Token) (now : Nat) :
    Except Failure (List ProgressEntry) :=
  match jwtDecode token now with
  | Except.error _ =>
      Except.error (Failure.unhandled "AttributeError: module jwt has no attribute JWTError")
  | Except.ok payload =>
      match findUser db payload.sub with
      | none =>
          Except.error (Failure.unhandled "AttributeError: NoneType has no attribute id")
      | some user =>
          let workouts := db.workouts.filter (fun w => w.user_id == user.id)
          let total_calories := (workouts.map Workout.calories_burned).sum
          let total_duration := (workouts.map Workout.duration).sum
          Except.ok ((db.user_goals.filter (fun g => g.user_id == user.id)).filterMap
            (fun goal =>
              if goal.goal_type == "calories" then
                some { goal_type := goal.goal_type, target := goal.target_value,
                       current := total_calories,
                       percentage :=
                         if goal.target_value > (0 : Rat) then
                           total_calories / goal.target_value * 100
                         else 0 }
              else if goal.goal_type == "duration" then
                some { goal_type := goal.goal_type, target := goal.target_value,
                       current := total_duration,
                       percentage :=
                         if goal.target_value > (0 : Rat) then
                           total_duration / goal.target_value * 100
                         else 0 }
              else none))

/-- Handler `add_song_to_playlist` for POST on a playlist id and song
id: decodes the token and looks the caller up, but
never reads the playlist row nor compares `user_id` values; it counts the
playlist's current entries and appends the song at the next position.  A
decode failure surfaces as an unhandled 500 through the broken
`except jwt.JWTError` clause. -/
def add_song_to_playlist (db : DB) (token : Token) (now : Nat)
    (playlist_id song_id : Nat) : Except Failure String × DB :=
  match jwtDecode token now with
  | Except.error _ =>
      (Except.error (Failure.unhandled "AttributeError: module jwt has no attribute JWTError"), db)
  | Except.ok payload =>
      let _user := findUser db payload.sub
      let max_position :=
        (db.playlist_songs.filter (fun ps => ps.playlist_id == playlist_id)).length
      let playlist_song : PlaylistSong :=
        { id := nextId (db.playlist_songs.map PlaylistSong.id),
          playlist_id := playlist_id, song_id := song_id,
          position := max_position + 1 }
      (Except.ok "Song added to playlist",
       { db with playlist_songs := db.playlist_songs ++ [playlist_song] })

/-- Handler `remove_song_from_playlist` for DELETE on a playlist id and
song id: decodes the token and looks the caller up,
but never compares the caller against the playlist owner; it deletes the
first `(playlist_id, song_id)` association if one exists.  The in-try
404 on a missing association and decode failures surface as unhandled
500s through the broken `except jwt.JWTError` clause. -/
def remove_song_from_playlist (db : DB) (token : Token) (now : Nat)
    (playlist_id song_id : Nat) : Except Failure String × DB :=
  match jwtDecode token now with
  | Except.error _ =>
      (Except.error (Failure.unhandled "AttributeError: module jwt has no attribute JWTError"), db)
  | Except.ok payload =>
      let _user := findUser db payload.sub
      match db.playlist_songs.find?
          (fun ps => ps.playlist_id == playlist_id && ps.song_id == song_id) with
      | some playlist_song =>
          (Except.ok "Song removed from playlist",
           { db with playlist_songs :=
              db.playlist_songs.eraseP (fun ps => ps.id == playlist_song.id) })
      | none =>
          (Except.error (Failure.unhandled "AttributeError: module jwt has no attribute JWTError"), db)

/-! Sample data used by closed-form results -/

/-- Sample user A. -/
def alice : User :=
  { id := 1, username := "alice", email := "alice@x.com", hashed_password := "H1" }

/-- Sample user B. -/
def bob : User :=
  { id := 2, username := "bob", email := "bob@x.com", hashed_password := "H2" }

/-- A workout created by `alice`. -/
def w1 : Workout :=
  { id := 1, user_id := 1, workout_type := "running", duration := 30,
    calories_burned := 250, date := 0, music_playlist_id := none }

/-- Store holding `alice`, `bob` and a workout owned by `alice`. -/
def dbAB : DB :=
  { users := [alice, bob], workouts := [w1], user_goals := [],
    playlists := [], playlist_songs := [] }

/-- Empty store. -/
def dbEmpty : DB :=
  { users := [], workouts := [], user_goals := [], playlists := [], playlist_songs := [] }

/-- A valid token for `alice` (expires at time 100). -/
def tokAlice : Token := { sub := "alice", exp := 100, key := "your-secret-key" }

/-- A valid token for `bob` (expires at time 100). -/
def tokBob : Token := { sub := "bob", exp := 100, key := "your-secret-key" }

/-- A correctly signed token whose subject is in no store. -/
def tokGhost : Token := { sub := "ghost", exp := 100, key := "your-secret-key" }

/-- A correctly signed token for `alice` that expires at time 5. -/
def tokExpired : Token := { sub := "alice", exp := 5, key := "your-secret-key" }

/-! Helper lemmas -/

/-- A correctly signed, unexpired token decodes to its payload. -/
lemma jwtDecode_valid (token : Token) (now : Nat)
    (hkey : token.key = SECRET_KEY) (hexp : now < token.exp) :
    jwtDecode token now = Except.ok { sub := token.sub, exp := token.exp } := by
  unfold jwtDecode
  rw [if_pos hkey, if_neg (by omega)]

/-- A token whose expiry has been reached never decodes, whatever its key. -/
lemma jwtDecode_expired_error (token : Token) (now : Nat) (h : token.exp ≤ now) :
    ∃ e, jwtDecode token now = Except.error e := by
  unfold jwtDecode
  by_cases hk : token.key = SECRET_KEY
  · rw [if_pos hk, if_pos h]; exact ⟨JwtError.expired, rfl⟩
  · rw [if_neg hk]; exact ⟨JwtError.invalidSignature, rfl⟩

/-- The ownership-gated workout lookup comes back empty when no stored
workout has both the requested id and the caller's id. -/
lemma find?_workout_none (db : DB) (workout_id uid : Nat)
    (h : ∀ w ∈ db.workouts, ¬(w.id = workout_id ∧ w.user_id = uid)) :
    db.workouts.find? (fun w => w.id == workout_id && w.user_id == uid) = none := by
  rw [List.find?_eq_none]
  intro w hw
  simp only [Bool.and_eq_true, beq_iff_eq]
  exact fun hc => h w hw hc

/-! Claims -/

/-- C1 as stated is false: `bob`'s get on `alice`'s workout surfaces
status 500, not the claimed 404 — the in-try `HTTPException(404)` dies
when the broken `except jwt.JWTError` clause is evaluated. -/
theorem C1_counterexample :
    errStatus (get_workout dbAB tokBob 0 1) = some 500 ∧
    errStatus (get_workout dbAB tokBob 0 1) ≠ some 404 := by
  constructor <;> decide

/-- Claim C1 (amended): for an authenticated caller, `GET`, `PUT` and
`DELETE` on a workout id that is absent or owned by another user all
fail with one and the same observable response — the two cases are
observably identical, since the hypothesis `∀ w ∈ db.workouts, ¬(w.id =
workout_id ∧ w.user_id = user.id)` covers both and the response is a
single fixed value (and `delete` leaves the store untouched) — but that
response is the unhandled-`AttributeError` 500 produced by the broken
`except jwt.JWTError` clause, not the 404 the handlers try to raise;
a workout the ownership-gated lookup finds is returned by `get`. -/
theorem C1_amended_ownership_gate (db : DB) (token : Token) (now : Nat)
    (workout_id : Nat) (user : User) (wt : String) (d c : Rat) (mpid : Option Nat)
    (hkey : token.key = SECRET_KEY) (hexp : now < token.exp)
    (huser : findUser db token.sub = some user) :
    ((∀ w ∈ db.workouts, ¬(w.id = workout_id ∧ w.user_id = user.id)) →
      get_workout db token now workout_id =
        Except.error (Failure.unhandled "AttributeError: module jwt has no attribute JWTError") ∧
      (update_workout db token now workout_id wt d c mpid).1 =
        Except.error (Failure.unhandled "AttributeError: module jwt has no attribute JWTError") ∧
      delete_workout db token now workout_id =
        (Except.error (Failure.unhandled "AttributeError: module jwt has no attribute JWTError"), db) ∧
      errStatus (get_workout db token now workout_id) = some 500) ∧
    (∀ w, db.workouts.find? (fun w => w.id == workout_id && w.user_id == user.id) = some w →
      get_workout db token now workout_id = Except.ok w) := by
  have hdec := jwtDecode_valid token now hkey hexp
  constructor
  · intro h
    have hfind := find?_workout_none db workout_id user.id h
    refine ⟨?_, ?_, ?_, ?_⟩ <;>
      simp [get_workout, update_workout, delete_workout, hdec, huser, hfind,
        errStatus, Failure.status]
  · intro w hw
    simp [get_workout, hdec, huser, hw]

/-- Closed instance of amended C1: `bob` gets the unhandled 500 on
`alice`'s workout; `alice` gets the workout itself. -/
theorem C1_amended_ownership_gate_witness :
    get_workout dbAB tokBob 0 1 =
      Except.error (Failure.unhandled "AttributeError: module jwt has no attribute JWTError") ∧
    get_workout dbAB tokAlice 0 1 = Except.ok w1 := by
  constructor
  · exact ((C1_amended_ownership_gate dbAB tokBob 0 1 bob "x" 0 0 none
      rfl (by decide) (by decide)).1 (by decide)).1
  · exact (C1_amended_ownership_gate dbAB tokAlice 0 1 alice "x" 0 0 none
      rfl (by decide) (by decide)).2 w1 (by decide)

/-- C6 as stated is false: a token expired at time 5, presented at time
7, is rejected with status 500 (the `ExpiredSignatureError` ends as an
unhandled `AttributeError` in the broken except clause), not 401. -/
theorem C6_counterexample :
    errStatus (get_workout dbAB tokExpired 7 1) = some 500 ∧
    errStatus (get_workout dbAB tokExpired 7 1) ≠ some 401 := by
  constructor <;> decide

/-- Claim C6 (amended): once the verification time has reached a token's
embedded expiry, no modelled protected endpoint ever authorizes the
request — but the rejection surfaces as the generic unhandled 500
(`jwt.decode` raises `ExpiredSignatureError`, and evaluating the broken
`except jwt.JWTError` clause raises `AttributeError`), not as the 401
the original claim states. -/
theorem C6_amended_expired_rejected (db : DB) (token : Token) (now : Nat)
    (workout_id playlist_id song_id : Nat) (wt : String) (d c : Rat)
    (mpid : Option Nat) (h : token.exp ≤ now) :
    errStatus (get_workout db token now workout_id) = some 500 ∧
    errStatus (update_workout db token now workout_id wt d c mpid).1 = some 500 ∧
    errStatus (delete_workout db token now workout_id).1 = some 500 ∧
    errStatus (create_workout db token now wt d c mpid).1 = some 500 ∧
    errStatus (get_workouts db token now) = some 500 ∧
    errStatus (get_goals db token now) = some 500 ∧
    errStatus (get_goal_progress db token now) = some 500 ∧
    errStatus (get_playlists db token now) = some 500 ∧
    errStatus (add_song_to_playlist db token now playlist_id song_id).1 = some 500 ∧
    errStatus (remove_song_from_playlist db token now playlist_id song_id).1 = some 500 := by
  obtain ⟨e, he⟩ := jwtDecode_expired_error token now h
  refine ⟨?_, ?_, ?_, ?_, ?_, ?_, ?_, ?_, ?_, ?_⟩ <;>
    simp [get_workout, update_workout, delete_workout, create_workout, get_workouts,
          get_goals, get_goal_progress, get_playlists, add_song_to_playlist,
          remove_song_from_playlist, he, errStatus, Failure.status]

/-- Closed instance of amended C6 at verification time 7 for a token
expiring at 5. -/
theorem C6_amended_expired_rejected_witness :
    errStatus (get_workout dbAB tokExpired 7 1) = some 500 ∧
    errStatus (update_workout dbAB tokExpired 7 1 "run" 1 1 none).1 = some 500 ∧
    errStatus (delete_workout dbAB tokExpired 7 1).1 = some 500 ∧
    errStatus (create_workout dbAB tokExpired 7 "run" 1 1 none).1 = some 500 ∧
    errStatus (get_workouts dbAB tokExpired 7) = some 500 ∧
    errStatus (get_goals dbAB tokExpired 7) = some 500 ∧
    errStatus (get_goal_progress dbAB tokExpired 7) = some 500 ∧
    errStatus (get_playlists dbAB tokExpired 7) = some 500 ∧
    errStatus (add_song_to_playlist dbAB tokExpired 7 10 7).1 = some 500 ∧
    errStatus (remove_song_from_playlist dbAB tokExpired 7 10 7).1 = some 500 :=
  C6_amended_expired_rejected dbAB tokExpired 7 1 10 7 "run" 1 1 none (by decide)

/-- Claim C7: the three list endpoints return exactly the caller's rows,
in storage order; rows of other users never appear, and a caller with no
rows receives the empty list whatever else the store holds. -/
theorem C7_list_endpoints_scoped (db : DB) (token : Token) (now : Nat) (user : User)
    (hkey : token.key = SECRET_KEY) (hexp : now < token.exp)
    (huser : findUser db token.sub = some user) :
    get_workouts db token now =
      Except.ok (db.workouts.filter (fun w => w.user_id == user.id)) ∧
    get_goals db token now =
      Except.ok (db.user_goals.filter (fun g => g.user_id == user.id)) ∧
    get_playlists db token now =
      Except.ok (db.playlists.filter (fun p => p.user_id == user.id)) ∧
    (∀ l, get_workouts db token now = Except.ok l → ∀ w ∈ l, w.user_id = user.id) ∧
    (∀ l, get_goals db token now = Except.ok l → ∀ g ∈ l, g.user_id = user.id) ∧
    (∀ l, get_playlists db token now = Except.ok l → ∀ p ∈ l, p.user_id = user.id) ∧
    ((∀ w ∈ db.workouts, w.user_id ≠ user.id) → get_workouts db token now = Except.ok []) ∧
    ((∀ g ∈ db.user_goals, g.user_id ≠ user.id) → get_goals db token now = Except.ok []) ∧
    ((∀ p ∈ db.playlists, p.user_id ≠ user.id) → get_playlists db token now = Except.ok []) := by
  have hdec := jwtDecode_valid token now hkey hexp
  have h1 : get_workouts db token now =
      Except.ok (db.workouts.filter (fun w => w.user_id == user.id)) := by
    simp [get_workouts, hdec, huser]
  have h2 : get_goals db token now =
      Except.ok (db.user_goals.filter (fun g => g.user_id == user.id)) := by
    simp [get_goals, hdec, huser]
  have h3 : get_playlists db token now =
      Except.ok (db.playlists.filter (fun p => p.user_id == user.id)) := by
    simp [get_playlists, hdec, huser]
  refine ⟨h1, h2, h3, ?_, ?_, ?_, ?_, ?_, ?_⟩
  · intro l hl w hw
    rw [h1] at hl
    cases hl
    exact beq_iff_eq.mp (List.mem_filter.mp hw).2
  · intro l hl g hg
    rw [h2] at hl
    cases hl
    exact beq_iff_eq.mp (List.mem_filter.mp hg).2
  · intro l hl p hp
    rw [h3] at hl
    cases hl
    exact beq_iff_eq.mp (List.mem_filter.mp hp).2
  · intro h
    rw [h1]
    congr 1
    rw [List.filter_eq_nil_iff]
    intro w hw
    simp only [beq_iff_eq]
    exact h w hw
  · intro h
    rw [h2]
    congr 1
    rw [List.filter_eq_nil_iff]
    intro g hg
    simp only [beq_iff_eq]
    exact h g hg
  · intro h
    rw [h3]
    congr 1
    rw [List.filter_eq_nil_iff]
    intro p hp
    simp only [beq_iff_eq]
    exact h p hp

/-- Closed instance of C7: `bob` owns nothing in `dbAB`, so all three
lists come back empty even though `alice` has a workout. -/
theorem C7_list_endpoints_scoped_witness :
    get_workouts dbAB tokBob 0 = Except.ok [] ∧
    get_goals dbAB tokBob 0 = Except.ok [] ∧
    get_playlists dbAB tokBob 0 = Except.ok [] := by
  have h := C7_list_endpoints_scoped dbAB tokBob 0 bob rfl (by decide) (by decide)
  exact ⟨h.2.2.2.2.2.2.1 (by decide), h.2.2.2.2.2.2.2.1 (by decide),
         h.2.2.2.2.2.2.2.2 (by decide)⟩

/-- Claim C3 (amended): `create_user` performs no conflict handling of
its own; when the username (or email) is already taken, the commit fails
with an uncaught `IntegrityError` surfaced as a generic 500 — not as a
400 `ConflictError` — and no duplicate row is persisted; when both
username and email are unused, the password is hashed, the row is
persisted and the handler answers with the success message. -/
theorem C3_amended_registration (hashFn : String → String) (db : DB)
    (un em pw : String) :
    ((∃ u ∈ db.users, u.username = un) →
      create_user hashFn db un em pw =
        (Except.error (Failure.unhandled "IntegrityError: UNIQUE constraint failed"), db) ∧
      errStatus (create_user hashFn db un em pw).1 = some 500) ∧
    ((∀ u ∈ db.users, u.username ≠ un ∧ u.email ≠ em) →
      create_user hashFn db un em pw =
        (Except.ok "User created successfully",
         { db with users := db.users ++
            [{ id := nextId (db.users.map User.id), username := un, email := em,
               hashed_password := hashFn pw }] })) := by
  constructor
  · rintro ⟨u, hu, rfl⟩
    have hany : db.users.any (fun v => v.username == u.username || v.email == em) = true := by
      rw [List.any_eq_true]
      exact ⟨u, hu, by simp⟩
    constructor <;> simp [create_user, hany, errStatus, Failure.status]
  · intro h
    have hany : db.users.any (fun v => v.username == un || v.email == em) = false := by
      rw [List.any_eq_false]
      intro v hv
      simp only [Bool.or_eq_true, beq_iff_eq, not_or]
      exact ⟨(h v hv).1, (h v hv).2⟩
    simp [create_user, hany]

/-- C3 as stated is false: registering the taken username `"alice"`
produces an unhandled 500, not a 400 with `ConflictError` detail. -/
theorem C3_counterexample :
    errStatus (create_user (fun p => p) dbAB "alice" "fresh@x.com" "pw").1 = some 500 ∧
    errStatus (create_user (fun p => p) dbAB "alice" "fresh@x.com" "pw").1 ≠ some 400 := by
  constructor <;> decide

/-- Closed instance of amended C3: a fresh username and email register
successfully and the hashed row is appended. -/
theorem C3_amended_registration_witness :
    create_user (fun p => p) dbAB "carol" "carol@x.com" "pw" =
      (Except.ok "User created successfully",
       { dbAB with users := dbAB.users ++
          [{ id := 3, username := "carol", email := "carol@x.com",
             hashed_password := "pw" }] }) := by
  have h := (C3_amended_registration (fun p => p) dbAB "carol" "carol@x.com" "pw").2
    (by decide)
  rw [h]
  rfl

/-- Claim C4 (amended): a login with an unknown username or a failing
password verification is rejected with status 401, but the raised
`HTTPException` carries no `WWW-Authenticate` header (the source passes
no `headers` argument); a successful login returns
`{access_token, token_type: "bearer"}`. -/
theorem C4_amended_login (verifyPassword : String → String → Bool) (db : DB)
    (un pw : String) (now : Nat) :
    (findUser db un = none →
      login verifyPassword db un pw now =
        Except.error (Failure.http ⟨401, "Incorrect username or password", none⟩)) ∧
    (∀ user, findUser db un = some user →
      verifyPassword pw user.hashed_password = false →
      login verifyPassword db un pw now =
        Except.error (Failure.http ⟨401, "Incorrect username or password", none⟩)) ∧
    (∀ user, findUser db un = some user →
      verifyPassword pw user.hashed_password = true →
      login verifyPassword db un pw now =
        Except.ok { access_token := create_access_token user.username now,
                    token_type := "bearer" }) ∧
    (∀ e, login verifyPassword db un pw now = Except.error e →
      Failure.challenge e = none) := by
  have hnone : findUser db un = none →
      login verifyPassword db un pw now =
        Except.error (Failure.http ⟨401, "Incorrect username or password", none⟩) := by
    intro h
    simp [login, h]
  have hbad : ∀ user, findUser db un = some user →
      verifyPassword pw user.hashed_password = false →
      login verifyPassword db un pw now =
        Except.error (Failure.http ⟨401, "Incorrect username or password", none⟩) := by
    intro user hu hv
    simp [login, hu, hv]
  have hgood : ∀ user, findUser db un = some user →
      verifyPassword pw user.hashed_password = true →
      login verifyPassword db un pw now =
        Except.ok { access_token := create_access_token user.username now,
                    token_type := "bearer" } := by
    intro user hu hv
    simp [login, hu, hv]
  refine ⟨hnone, hbad, hgood, ?_⟩
  intro e he
  cases hu : findUser db un with
  | none =>
      rw [hnone hu] at he
      injection he with h2
      subst h2
      rfl
  | some user =>
      cases hv : verifyPassword pw user.hashed_password with
      | true =>
          rw [hgood user hu hv] at he
          simp at he
      | false =>
          rw [hbad user hu hv] at he
          injection he with h2
          subst h2
          rfl

/-- C4 as stated is false: a failed login is a 401 whose
`WWW-Authenticate` header is absent, not `Bearer`. -/
theorem C4_counterexample :
    errStatus (login (fun _ _ => false) dbEmpty "alice" "pw" 0) = some 401 ∧
    errChallenge (login (fun _ _ => false) dbEmpty "alice" "pw" 0) = some none ∧
    errChallenge (login (fun _ _ => false) dbEmpty "alice" "pw" 0) ≠ some (some "Bearer") := by
  refine ⟨?_, ?_, ?_⟩ <;> decide

/-- Closed instance of amended C4: `alice` logging in with the matching
password receives a bearer token. -/
theorem C4_amended_login_witness :
    login (fun p h => p == h) dbAB "alice" "H1" 0 =
      Except.ok { access_token := create_access_token "alice" 0,
                  token_type := "bearer" } :=
  (C4_amended_login (fun p h => p == h) dbAB "alice" "H1" 0).2.2.1 alice
    (by decide) (by decide)

/-- Claim C5 (amended): a request carrying a correctly signed, unexpired
token whose subject is in no user row is rejected, but not with the
specified 401: the handler dereferences the missing user (`user.id` on
`None`), an `AttributeError` nothing catches, surfaced as a generic
500. -/
theorem C5_amended_unknown_subject (db : DB) (token : Token) (now : Nat)
    (wt : String) (d c : Rat) (mpid : Option Nat)
    (hkey : token.key = SECRET_KEY) (hexp : now < token.exp)
    (hmiss : findUser db token.sub = none) :
    get_workouts db token now =
      Except.error (Failure.unhandled "AttributeError: NoneType has no attribute id") ∧
    errStatus (get_workouts db token now) = some 500 ∧
    create_workout db token now wt d c mpid =
      (Except.error (Failure.unhandled "AttributeError: NoneType has no attribute id"), db) ∧
    errStatus (get_workouts db token now) ≠ some 401 := by
  have hdec := jwtDecode_valid token now hkey hexp
  refine ⟨?_, ?_, ?_, ?_⟩ <;>
    simp [get_workouts, create_workout, hdec, hmiss, errStatus, Failure.status]

/-- C5 as stated is false: a valid token for the absent subject `"ghost"`
yields a 500, not the specified 401. -/
theorem C5_counterexample :
    errStatus (get_workouts dbAB tokGhost 0) = some 500 ∧
    errStatus (get_workouts dbAB tokGhost 0) ≠ some 401 := by
  constructor <;> decide

/-- Closed instance of amended C5 at the `"ghost"` token. -/
theorem C5_amended_unknown_subject_witness :
    get_workouts dbAB tokGhost 0 =
      Except.error (Failure.unhandled "AttributeError: NoneType has no attribute id") :=
  (C5_amended_unknown_subject dbAB tokGhost 0 "x" 0 0 none rfl (by decide)
    (by decide)).1

/-- A playlist owned by `alice`. -/
def playlistA : Playlist :=
  { id := 10, user_id := 1, name := "mix", description := "d", is_workout_playlist := false }

/-- Store where `alice` owns playlist 10 holding song 7, with `bob`
present as a second user. -/
def dbPl : DB :=
  { users := [alice, bob], workouts := [], user_goals := [],
    playlists := [playlistA],
    playlist_songs := [{ id := 1, playlist_id := 10, song_id := 7, position := 1 }] }

/-- Claim C2 is violated by the code: `bob` (id 2) is not the owner of
playlist 10 (owned by id 1), yet both adding a song to it and removing a
song from it succeed — neither handler ever compares the caller's id
with the playlist's `user_id`. -/
theorem C2_no_ownership_check :
    findUser dbPl "bob" = some bob ∧
    dbPl.playlists.find? (fun p => p.id == 10) = some playlistA ∧
    bob.id ≠ playlistA.user_id ∧
    (add_song_to_playlist dbPl tokBob 0 10 8).1 = Except.ok "Song added to playlist" ∧
    (add_song_to_playlist dbPl tokBob 0 10 8).2.playlist_songs =
      [{ id := 1, playlist_id := 10, song_id := 7, position := 1 },
       { id := 2, playlist_id := 10, song_id := 8, position := 2 }] ∧
    (remove_song_from_playlist dbPl tokBob 0 10 7).1 =
      Except.ok "Song removed from playlist" ∧
    (remove_song_from_playlist dbPl tokBob 0 10 7).2.playlist_songs = [] := by
  refine ⟨?_, ?_, ?_, ?_, ?_, ?_, ?_⟩ <;> decide

/-- Claim C8 (amended): a successful `PUT /workouts/{workout_id}`
overwrites `workout_type`, `duration` and `calories_burned` with the
payload, but the payload's `playlist_id` is ignored: the stored (and
returned) row keeps its previous `music_playlist_id`, along with its
`id`, `user_id` and `date`; a non-owned or absent id fails exactly as in
`get`: the in-try 404 is destroyed by the broken `except jwt.JWTError`
clause and both surface the same unhandled 500. -/
theorem C8_amended_update (db : DB) (token : Token) (now : Nat)
    (workout_id : Nat) (user : User) (wt : String) (d c : Rat) (mpid : Option Nat)
    (hkey : token.key = SECRET_KEY) (hexp : now < token.exp)
    (huser : findUser db token.sub = some user) :
    (∀ w, db.workouts.find? (fun x => x.id == workout_id && x.user_id == user.id) = some w →
      (update_workout db token now workout_id wt d c mpid).1 =
        Except.ok { w with workout_type := wt, duration := d, calories_burned := c } ∧
      (update_workout db token now workout_id wt d c mpid).2 =
        { db with workouts := db.workouts.map (fun x =>
            if x.id == w.id then
              { w with workout_type := wt, duration := d, calories_burned := c }
            else x) } ∧
      ({ w with workout_type := wt, duration := d, calories_burned := c } : Workout).id = w.id ∧
      ({ w with workout_type := wt, duration := d, calories_burned := c } : Workout).user_id
        = w.user_id ∧
      ({ w with workout_type := wt, duration := d, calories_burned := c } : Workout).date
        = w.date ∧
      ({ w with workout_type := wt, duration := d, calories_burned := c } : Workout).music_playlist_id = w.music_playlist_id) ∧
    ((∀ x ∈ db.workouts, ¬(x.id = workout_id ∧ x.user_id = user.id)) →
      (update_workout db token now workout_id wt d c mpid).1 =
        Except.error (Failure.unhandled "AttributeError: module jwt has no attribute JWTError") ∧
      get_workout db token now workout_id =
        Except.error (Failure.unhandled "AttributeError: module jwt has no attribute JWTError")) := by
  have hdec := jwtDecode_valid token now hkey hexp
  constructor
  · intro w hw
    refine ⟨?_, ?_, rfl, rfl, rfl, rfl⟩ <;> simp [update_workout, hdec, huser, hw]
  · intro h
    have hfind := find?_workout_none db workout_id user.id h
    constructor <;> simp [update_workout, get_workout, hdec, huser, hfind]

/-- A workout of `alice` linked to playlist 5. -/
def w5 : Workout :=
  { id := 1, user_id := 1, workout_type := "running", duration := 30,
    calories_burned := 250, date := 0, music_playlist_id := some 5 }

/-- Store holding `alice` and her playlist-linked workout. -/
def dbW5 : DB :=
  { users := [alice], workouts := [w5], user_goals := [], playlists := [],
    playlist_songs := [] }

/-- C8 as stated is false: updating with payload `playlist_id = some 9`
leaves the stored and returned `music_playlist_id` at `some 5`. -/
theorem C8_counterexample :
    (update_workout dbW5 tokAlice 0 1 "cycling" 40 300 (some 9)).1 =
      Except.ok { id := 1, user_id := 1, workout_type := "cycling", duration := 40,
                  calories_burned := 300, date := 0, music_playlist_id := some 5 } ∧
    (update_workout dbW5 tokAlice 0 1 "cycling" 40 300 (some 9)).2.workouts =
      [{ id := 1, user_id := 1, workout_type := "cycling", duration := 40,
         calories_burned := 300, date := 0, music_playlist_id := some 5 }] ∧
    (some 5 : Option Nat) ≠ some 9 := by
  refine ⟨?_, ?_, ?_⟩ <;> decide

/-- Closed instance of amended C8 at `dbW5`. -/
theorem C8_amended_update_witness :
    (update_workout dbW5 tokAlice 0 1 "cycling" 40 300 (some 9)).1 =
      Except.ok { w5 with workout_type := "cycling", duration := 40, calories_burned := 300 } :=
  ((C8_amended_update dbW5 tokAlice 0 1 alice "cycling" 40 300 (some 9) rfl
    (by decide) (by decide)).1 w5 (by decide)).1

/-! Hash secrecy (C9) -/

/-- Replace every stored password hash according to `f`, leaving every
other field and table untouched. -/
def setHashes (db : DB) (f : User → String) : DB :=
  { db with users := db.users.map (fun u => { u with hashed_password := f u }) }

lemma find?_username_map_hash (l : List User) (f : User → String) (s : String) :
    (l.map (fun u => { u with hashed_password := f u })).find? (fun u => u.username == s) =
      (l.find? (fun u => u.username == s)).map (fun u => { u with hashed_password := f u }) := by
  induction l with
  | nil => rfl
  | cons a t ih =>
      cases h : a.username == s with
      | true => simp [List.find?_cons, h]
      | false => simp [List.find?_cons, h, ih]

/-- Looking a username up in a hash-rewritten store finds the same user
row with only its hash rewritten. -/
lemma findUser_setHashes (db : DB) (f : User → String) (s : String) :
    findUser (setHashes db f) s =
      (findUser db s).map (fun u => { u with hashed_password := f u }) :=
  find?_username_map_hash db.users f s

lemma setHashes_workouts (db : DB) (f : User → String) :
    (setHashes db f).workouts = db.workouts := rfl

lemma setHashes_user_goals (db : DB) (f : User → String) :
    (setHashes db f).user_goals = db.user_goals := rfl

lemma setHashes_playlists (db : DB) (f : User → String) :
    (setHashes db f).playlists = db.playlists := rfl

lemma login_eq_of_not_found (verifyPassword : String → String → Bool) (db : DB)
    (un pw : String) (now : Nat) (h : findUser db un = none) :
    login verifyPassword db un pw now =
      Except.error (Failure.http ⟨401, "Incorrect username or password", none⟩) := by
  simp [login, h]

lemma login_eq_of_bad_password (verifyPassword : String → String → Bool) (db : DB)
    (un pw : String) (now : Nat) (user : User) (h : findUser db un = some user)
    (hv : verifyPassword pw user.hashed_password = false) :
    login verifyPassword db un pw now =
      Except.error (Failure.http ⟨401, "Incorrect username or password", none⟩) := by
  simp [login, h, hv]

lemma login_eq_of_good_password (verifyPassword : String → String → Bool) (db : DB)
    (un pw : String) (now : Nat) (user : User) (h : findUser db un = some user)
    (hv : verifyPassword pw user.hashed_password = true) :
    login verifyPassword db un pw now =
      Except.ok { access_token := create_access_token user.username now,
                  token_type := "bearer" } := by
  simp [login, h, hv]

/-- Claim C9: no response carries the stored password hash.  Formalised
as noninterference: rewriting every stored hash (via any `f`) leaves the
response of every modelled resource endpoint unchanged; registration
answers only with the fixed success message or the uncaught conflict
failure; and `login` — the one handler that consumes hashes, and only
through the boolean verifier — is unchanged whenever the verifier's
verdicts are unchanged. -/
theorem C9_hash_noninterference (db : DB) (f : User → String)
    (hashFn : String → String) (verifyPassword : String → String → Bool)
    (token : Token) (now : Nat) (workout_id : Nat)
    (wt : String) (d c : Rat) (mpid : Option Nat) (un em pw : String) :
    get_workout (setHashes db f) token now workout_id =
      get_workout db token now workout_id ∧
    (update_workout (setHashes db f) token now workout_id wt d c mpid).1 =
      (update_workout db token now workout_id wt d c mpid).1 ∧
    get_workouts (setHashes db f) token now = get_workouts db token now ∧
    get_goals (setHashes db f) token now = get_goals db token now ∧
    get_goal_progress (setHashes db f) token now = get_goal_progress db token now ∧
    get_playlists (setHashes db f) token now = get_playlists db token now ∧
    ((create_user hashFn db un em pw).1 = Except.ok "User created successfully" ∨
     (create_user hashFn db un em pw).1 =
       Except.error (Failure.unhandled "IntegrityError: UNIQUE constraint failed")) ∧
    ((∀ u ∈ db.users, verifyPassword pw (f u) = verifyPassword pw u.hashed_password) →
      login verifyPassword (setHashes db f) un pw now =
        login verifyPassword db un pw now) := by
  refine ⟨?_, ?_, ?_, ?_, ?_, ?_, ?_, ?_⟩
  · cases hdec : jwtDecode token now with
    | error e => simp [get_workout, hdec]
    | ok p =>
        cases hfu : findUser db p.sub with
        | none =>
            simp [get_workout, hdec, hfu, findUser_setHashes, setHashes_workouts]
        | some u =>
            simp [get_workout, hdec, hfu, findUser_setHashes, setHashes_workouts]
  · cases hdec : jwtDecode token now with
    | error e => simp [update_workout, hdec]
    | ok p =>
        cases hfu : findUser db p.sub with
        | none =>
            simp [update_workout, hdec, hfu, findUser_setHashes, setHashes_workouts]
        | some u =>
            cases hfw : db.workouts.find?
                (fun w => w.id == workout_id && w.user_id == u.id) with
            | none =>
                simp [update_workout, hdec, hfu, hfw, findUser_setHashes,
                  setHashes_workouts]
            | some w =>
                simp [update_workout, hdec, hfu, hfw, findUser_setHashes,
                  setHashes_workouts]
  · cases hdec : jwtDecode token now with
    | error e => simp [get_workouts, hdec]
    | ok p =>
        cases hfu : findUser db p.sub with
        | none =>
            simp [get_workouts, hdec, hfu, findUser_setHashes, setHashes_workouts]
        | some u =>
            simp [get_workouts, hdec, hfu, findUser_setHashes, setHashes_workouts]
  · cases hdec : jwtDecode token now with
    | error e => simp [get_goals, hdec]
    | ok p =>
        cases hfu : findUser db p.sub with
        | none =>
            simp [get_goals, hdec, hfu, findUser_setHashes, setHashes_user_goals]
        | some u =>
            simp [get_goals, hdec, hfu, findUser_setHashes, setHashes_user_goals]
  · cases hdec : jwtDecode token now with
    | error e => simp [get_goal_progress, hdec]
    | ok p =>
        cases hfu : findUser db p.sub with
        | none =>
            simp [get_goal_progress, hdec, hfu, findUser_setHashes,
              setHashes_workouts, setHashes_user_goals]
        | some u =>
            simp [get_goal_progress, hdec, hfu, findUser_setHashes,
              setHashes_workouts, setHashes_user_goals]
  · cases hdec : jwtDecode token now with
    | error e => simp [get_playlists, hdec]
    | ok p =>
        cases hfu : findUser db p.sub with
        | none =>
            simp [get_playlists, hdec, hfu, findUser_setHashes, setHashes_playlists]
        | some u =>
            simp [get_playlists, hdec, hfu, findUser_setHashes, setHashes_playlists]
  · by_cases hany : db.users.any (fun u => u.username == un || u.email == em) = true
    · right
      simp [create_user, hany]
    · left
      simp [create_user, hany]
  · intro hv
    cases hfu : findUser db un with
    | none =>
        have h1 : findUser (setHashes db f) un = none := by
          rw [findUser_setHashes, hfu]
          rfl
        rw [login_eq_of_not_found _ _ _ _ _ h1, login_eq_of_not_found _ _ _ _ _ hfu]
    | some u =>
        have hu : u ∈ db.users := List.mem_of_find?_eq_some hfu
        have h1 : findUser (setHashes db f) un =
            some { u with hashed_password := f u } := by
          rw [findUser_setHashes, hfu]
          rfl
        cases hvp : verifyPassword pw u.hashed_password with
        | false =>
            have h2 : verifyPassword pw
                ({ u with hashed_password := f u } : User).hashed_password = false := by
              show verifyPassword pw (f u) = false
              rw [hv u hu]
              exact hvp
            rw [login_eq_of_bad_password _ _ _ _ _ _ h1 h2,
              login_eq_of_bad_password _ _ _ _ _ _ hfu hvp]
        | true =>
            have h2 : verifyPassword pw
                ({ u with hashed_password := f u } : User).hashed_password = true := by
              show verifyPassword pw (f u) = true
              rw [hv u hu]
              exact hvp
            rw [login_eq_of_good_password _ _ _ _ _ _ h1 h2,
              login_eq_of_good_password _ _ _ _ _ _ hfu hvp]

/-- Closed instance of C9: masking both stored hashes in `dbAB` changes
neither a resource listing nor a (failing) login outcome. -/
theorem C9_hash_noninterference_witness :
    get_workouts (setHashes dbAB (fun _ => "masked")) tokAlice 0 =
      get_workouts dbAB tokAlice 0 ∧
    login (fun p h => p == h) (setHashes dbAB (fun _ => "masked")) "alice" "zzz" 0 =
      login (fun p h => p == h) dbAB "alice" "zzz" 0 := by
  have h := C9_hash_noninterference dbAB (fun _ => "masked") (fun p => p)
    (fun p h => p == h) tokAlice 0 1 "x" 0 0 none "alice" "a@x.com" "zzz"
  exact ⟨h.2.2.1, h.2.2.2.2.2.2.2 (by decide)⟩

/-! Goal progress (C10) -/

/-- Sum of `calories_burned` over the workouts owned by `uid`
(source line: `sum(w.calories_burned for w in workouts)`). -/
def total_calories (db : DB) (uid : Nat) : Rat :=
  ((db.workouts.filter (fun w => w.user_id == uid)).map Workout.calories_burned).sum

/-- Sum of `duration` over the workouts owned by `uid`. -/
def total_duration (db : DB) (uid : Nat) : Rat :=
  ((db.workouts.filter (fun w => w.user_id == uid)).map Workout.duration).sum

lemma goal_progress_filterMap_eq (goals : List UserGoal) (tc td : Rat) :
    goals.filterMap (fun goal =>
      if goal.goal_type == "calories" then
        some { goal_type := goal.goal_type, target := goal.target_value, current := tc,
               percentage :=
                 if goal.target_value > (0 : Rat) then tc / goal.target_value * 100
                 else 0 }
      else if goal.goal_type == "duration" then
        some { goal_type := goal.goal_type, target := goal.target_value, current := td,
               percentage :=
                 if goal.target_value > (0 : Rat) then td / goal.target_value * 100
                 else 0 }
      else (none : Option ProgressEntry)) =
    (goals.filter (fun g => g.goal_type == "calories" || g.goal_type == "duration")).map
      (fun g =>
        { goal_type := g.goal_type, target := g.target_value,
          current := if g.goal_type == "calories" then tc else td,
          percentage :=
            if g.target_value > (0 : Rat) then
              (if g.goal_type == "calories" then tc else td) / g.target_value * 100
            else 0 }) := by
  induction goals with
  | nil => rfl
  | cons a t ih =>
      simp only [beq_iff_eq, gt_iff_lt] at ih
      by_cases hp : a.goal_type = "calories"
      · simp [List.filterMap_cons, List.filter_cons, hp, ih]
      · by_cases hq : a.goal_type = "duration"
        · simp [List.filterMap_cons, List.filter_cons, hp, hq, ih]
        · simp [List.filterMap_cons, List.filter_cons, hp, hq, ih]

/-- Claim C10: `GET /goals/progress` yields one entry per goal of the
caller whose type is `"calories"` or `"duration"` (any other type yields
no entry), and each entry's percentage is `current / target * 100` when
the target is positive and `0` when the target is `<= 0` — the division
only ever happens under the positivity guard. -/
theorem C10_goal_progress_guarded (db : DB) (token : Token) (now : Nat) (user : User)
    (hkey : token.key = SECRET_KEY) (hexp : now < token.exp)
    (huser : findUser db token.sub = some user) :
    get_goal_progress db token now =
      Except.ok (((db.user_goals.filter (fun g => g.user_id == user.id)).filter
          (fun g => g.goal_type == "calories" || g.goal_type == "duration")).map
        (fun g =>
          { goal_type := g.goal_type, target := g.target_value,
            current := if g.goal_type == "calories" then total_calories db user.id
                       else total_duration db user.id,
            percentage :=
              if g.target_value > (0 : Rat) then
                (if g.goal_type == "calories" then total_calories db user.id
                 else total_duration db user.id) / g.target_value * 100
              else 0 })) ∧
    (∀ l, get_goal_progress db token now = Except.ok l →
      ∀ e ∈ l, ((0 : Rat) < e.target → e.percentage = e.current / e.target * 100) ∧
               (e.target ≤ 0 → e.percentage = 0)) := by
  have hdec := jwtDecode_valid token now hkey hexp
  have h0 : get_goal_progress db token now =
      Except.ok ((db.user_goals.filter (fun g => g.user_id == user.id)).filterMap
        (fun goal =>
          if goal.goal_type == "calories" then
            some { goal_type := goal.goal_type, target := goal.target_value,
                   current := total_calories db user.id,
                   percentage :=
                     if goal.target_value > (0 : Rat) then
                       total_calories db user.id / goal.target_value * 100
                     else 0 }
          else if goal.goal_type == "duration" then
            some { goal_type := goal.goal_type, target := goal.target_value,
                   current := total_duration db user.id,
                   percentage :=
                     if goal.target_value > (0 : Rat) then
                       total_duration db user.id / goal.target_value * 100
                     else 0 }
          else (none : Option ProgressEntry))) := by
    simp [get_goal_progress, hdec, huser, total_calories, total_duration]
  have h1 : get_goal_progress db token now =
      Except.ok (((db.user_goals.filter (fun g => g.user_id == user.id)).filter
          (fun g => g.goal_type == "calories" || g.goal_type == "duration")).map
        (fun g =>
          { goal_type := g.goal_type, target := g.target_value,
            current := if g.goal_type == "calories" then total_calories db user.id
                       else total_duration db user.id,
            percentage :=
              if g.target_value > (0 : Rat) then
                (if g.goal_type == "calories" then total_calories db user.id
                 else total_duration db user.id) / g.target_value * 100
              else 0 })) :=
    h0.trans (congrArg Except.ok (goal_progress_filterMap_eq
      (db.user_goals.filter (fun g => g.user_id == user.id))
      (total_calories db user.id) (total_duration db user.id)))
  refine ⟨h1, ?_⟩
  intro l hl e he
  rw [h1] at hl
  injection hl with hl2
  subst hl2
  obtain ⟨g, hg, he2⟩ := List.mem_map.mp he
  subst he2
  by_cases htv : (0 : Rat) < g.target_value
  · constructor
    · intro _
      simp [htv]
    · intro hle
      exact absurd htv (not_lt.mpr hle)
  · constructor
    · intro hpos
      exact absurd hpos htv
    · intro _
      simp [htv]

/-- Goal of `alice` of type calories with a positive target. -/
def goalCal : UserGoal :=
  { id := 1, user_id := 1, goal_type := "calories", target_value := 500, deadline := 0 }

/-- Goal of `alice` of type duration with target 0 (guard case). -/
def goalZero : UserGoal :=
  { id := 2, user_id := 1, goal_type := "duration", target_value := 0, deadline := 0 }

/-- Goal of `alice` of a type the endpoint skips. -/
def goalSteps : UserGoal :=
  { id := 3, user_id := 1, goal_type := "steps", target_value := 10, deadline := 0 }

/-- Store with `alice`, her workout and three goals. -/
def dbGoals : DB :=
  { users := [alice], workouts := [w1], user_goals := [goalCal, goalZero, goalSteps],
    playlists := [], playlist_songs := [] }

/-- Closed instance of C10: the calories goal reports 50 percent, the
zero-target duration goal reports 0 without dividing, and the
`"steps"` goal yields no entry. -/
theorem C10_goal_progress_guarded_witness :
    get_goal_progress dbGoals tokAlice 0 =
      Except.ok
        [{ goal_type := "calories", target := 500, current := 250, percentage := 50 },
         { goal_type := "duration", target := 0, current := 30, percentage := 0 }] := by
  have h := (C10_goal_progress_guarded dbGoals tokAlice 0 alice rfl (by decide)
    (by decide)).1
  rw [h]
  norm_num [dbGoals, goalCal, goalZero, goalSteps, alice, w1, total_calories,
    total_duration]
  decide

end Server
